import Mathlib

/-!
Shallow embedding of the Deno networking ops module (cli/ops/net.rs):
the TCP listener resource with its single tracked accept task, the
three-state Accept future (Eager / Pending / Done), and the synchronous
parts of the op handlers (accept, dial, shutdown, listen).

External collaborators (the tokio socket, the scheduler, the permission
check, the address resolver) are represented by explicit parameters: the
outcome of one listener.poll_accept call is an input to Accept.poll, the
current scheduler task is an input, and so on.  Machine integers are
modelled as Int/Nat with explicit reduction modulo 2^32 where the Rust
code performs an `as u32` cast.
-/

namespace DenoNet

/-- A scheduler task handle (futures::task::Task), identified abstractly. -/
abbrev Task : Type := Nat

/-- A socket address, in its textual host:port form. -/
abbrev Addr : Type := String

/-- A connected TCP stream socket.  Each direction can be open or shut
(the half-close state mutated by TcpStream::shutdown). -/
structure TcpStreamSock where
  readOpen : Bool
  writeOpen : Bool
  deriving DecidableEq, Repr

/-- ResourceId: the u32 handle keying the resource table. -/
abbrev ResourceId : Type := Nat

/-- Error values produced by this module (ErrBox instances distinguished
by their construction site). -/
inductive ErrBox where
  /-- io::Error "Listener has been closed" (spec: ListenerUnavailable). -/
  | listenerClosed
  /-- io::Error "Another accept task is ongoing" (spec: ConcurrentAcceptViolation). -/
  | anotherAcceptOngoing
  /-- deno_error::bad_resource() (spec: BadResource). -/
  | badResource
  /-- permission check denial from state.check_net. -/
  | permissionDenied
  /-- an underlying OS socket error, wrapped via ErrBox::from. -/
  | ioError (code : Nat)
  deriving DecidableEq, Repr

/-- The tcpListener resource stored in the resource table:
the bound socket (abstract), at most one tracked accept task,
and the local address. -/
structure TcpListenerResource where
  task : Option Task
  local_addr : Addr
  deriving DecidableEq

/-- StreamResource (from cli/ops/io.rs): this core only constructs the
TcpStream variant; other variants exist and are rejected by op_shutdown. -/
inductive StreamResource where
  | tcpStream (s : TcpStreamSock)
  | otherVariant
  deriving DecidableEq

/-- A tagged resource value in the table. -/
inductive Resource where
  | tcpListener (r : TcpListenerResource)
  | stream (r : StreamResource)
  deriving DecidableEq

/-- The shared resource table: an association list from ResourceId to
tagged resources (the lock-guarded ResourceTable of deno::state). -/
abbrev ResourceTable : Type := List (ResourceId × Resource)

/-- Raw lookup of a table entry by handle. -/
def ResourceTable.get (t : ResourceTable) (rid : ResourceId) : Option Resource :=
  (t.find? (fun p => p.1 = rid)).map Prod.snd

/-- table.get::<TcpListenerResource>(rid): a typed lookup that yields the
listener only when the handle resolves to the tcpListener variant. -/
def ResourceTable.getTcpListener (t : ResourceTable) (rid : ResourceId) :
    Option TcpListenerResource :=
  match t.get rid with
  | some (Resource.tcpListener lr) => some lr
  | _ => none

/-- table.get::<StreamResource>(rid): typed lookup for stream resources. -/
def ResourceTable.getStream (t : ResourceTable) (rid : ResourceId) :
    Option StreamResource :=
  match t.get rid with
  | some (Resource.stream sr) => some sr
  | _ => none

/-- Write back a mutated listener at its handle (the effect of mutating
through table.get_mut::<TcpListenerResource>). -/
def ResourceTable.setTcpListener (t : ResourceTable) (rid : ResourceId)
    (lr : TcpListenerResource) : ResourceTable :=
  t.map (fun p => if p.1 = rid then (p.1, Resource.tcpListener lr) else p)

/-- Write back a mutated stream resource at its handle. -/
def ResourceTable.setStream (t : ResourceTable) (rid : ResourceId)
    (sr : StreamResource) : ResourceTable :=
  t.map (fun p => if p.1 = rid then (p.1, Resource.stream sr) else p)

/-- TcpListenerResource::track_task: record the current task as the
listener's waiting task; errors out if a task is already tracked
(the single-waiter invariant), leaving the stored task untouched. -/
def TcpListenerResource.track_task (lr : TcpListenerResource) (cur : Task) :
    Except ErrBox TcpListenerResource :=
  if lr.task.isSome then
    Except.error ErrBox.anotherAcceptOngoing
  else
    Except.ok { lr with task := some cur }

/-- TcpListenerResource::notify_task: take the tracked task, if any, and
notify it.  Returns the resource with the slot cleared together with the
task that was woken. -/
def TcpListenerResource.notify_task (lr : TcpListenerResource) :
    TcpListenerResource × Option Task :=
  match lr.task with
  | some t => ({ lr with task := none }, some t)
  | none => (lr, none)

/-- TcpListenerResource::untrack_task: clear the tracked task slot. -/
def TcpListenerResource.untrack_task (lr : TcpListenerResource) :
    TcpListenerResource :=
  if lr.task.isSome then { lr with task := none } else lr

/-- Removing a handle from the table runs the removed resource's Drop
implementation synchronously.  For a tcpListener, Drop calls notify_task,
waking any tracked waiting task.  Returns the shrunk table together with
the task that was woken, if any. -/
def ResourceTable.close (t : ResourceTable) (rid : ResourceId) :
    ResourceTable × Option Task :=
  match t.get rid with
  | some (Resource.tcpListener lr) =>
      (t.filter (fun p => p.1 ≠ rid), (lr.notify_task).2)
  | some (Resource.stream _) =>
      (t.filter (fun p => p.1 ≠ rid), none)
  | none => (t, none)

/-- The three phases of the Accept future (enum AcceptState). -/
inductive AcceptState where
  | Eager
  | Pending
  | Done
  deriving DecidableEq, Repr

/-- The Accept future: phase, the listener handle it polls, and (by
reference) the shared state holding the resource table. -/
structure Accept where
  accept_state : AcceptState
  rid : ResourceId

/-- accept(state, rid): construct the future in its Eager phase. -/
def accept (rid : ResourceId) : Accept :=
  { accept_state := AcceptState.Eager, rid := rid }

/-- The outcome of one listener.poll_accept() call on the underlying
socket: an input to Accept.poll, supplied by the tokio reactor. -/
inductive SockPoll where
  | ready (s : TcpStreamSock) (addr : Addr)
  | notReady
  | ioErr (code : Nat)
  deriving DecidableEq

/-- The result of one Accept::poll invocation, including the panicking
branch that guards re-polling a Done future. -/
inductive AcceptPoll where
  | panicked
  | ready (s : TcpStreamSock) (addr : Addr)
  | notReady
  | err (e : ErrBox)
  deriving DecidableEq

/-- Accept::poll.  The current scheduler task (what futures::task::current
would return) and the outcome of the single listener.poll_accept call that
this invocation would perform are explicit inputs.  Returns the updated
future, the updated resource table, and the poll result. -/
def Accept.poll (a : Accept) (table : ResourceTable) (cur : Task)
    (sock : SockPoll) : Accept × ResourceTable × AcceptPoll :=
  if a.accept_state = AcceptState.Done then
    (a, table, AcceptPoll.panicked)
  else
    match table.getTcpListener a.rid with
    | none => (a, table, AcceptPoll.err ErrBox.listenerClosed)
    | some listener_resource =>
      if a.accept_state = AcceptState.Eager then
        match sock with
        | SockPoll.ready stream addr =>
            ({ a with accept_state := AcceptState.Done }, table,
              AcceptPoll.ready stream addr)
        | SockPoll.notReady =>
            ({ a with accept_state := AcceptState.Pending }, table,
              AcceptPoll.notReady)
        | SockPoll.ioErr code =>
            ({ a with accept_state := AcceptState.Done }, table,
              AcceptPoll.err (ErrBox.ioError code))
      else
        match sock with
        | SockPoll.ready stream addr =>
            ({ a with accept_state := AcceptState.Done },
              table.setTcpListener a.rid listener_resource.untrack_task,
              AcceptPoll.ready stream addr)
        | SockPoll.notReady =>
            match listener_resource.track_task cur with
            | Except.ok lr' =>
                (a, table.setTcpListener a.rid lr', AcceptPoll.notReady)
            | Except.error e => (a, table, AcceptPoll.err e)
        | SockPoll.ioErr code =>
            ({ a with accept_state := AcceptState.Done },
              table.setTcpListener a.rid listener_resource.untrack_task,
              AcceptPoll.err (ErrBox.ioError code))

/-- The Rust cast expression rid as u32 applied to an i32 value: two's
complement reinterpretation, i.e. reduction modulo 2^32 into [0, 2^32). -/
def i32_as_u32 (x : Int) : ResourceId :=
  (x % (2 ^ 32 : Int)).toNat

/-- Outcome of a synchronous op handler body: a panic (assert_eq! or
unimplemented!), an ErrBox failure, or a success value. -/
inductive SyncOutcome (α : Type) where
  | panicked
  | err (e : ErrBox)
  | ok (a : α)
  deriving DecidableEq

/-- op_accept: decode rid as i32, cast to u32, then synchronously check
that the handle resolves to a TcpListenerResource (bad_resource
otherwise); on success return the async Accept future in its Eager
phase. -/
def op_accept (table : ResourceTable) (rid_arg : Int) : Except ErrBox Accept :=
  let rid := i32_as_u32 rid_arg
  match table.getTcpListener rid with
  | none => Except.error ErrBox.badResource
  | some _ => Except.ok (accept rid)

/-- std::net::Shutdown: the half-close selector passed to
TcpStream::shutdown. -/
inductive ShutdownHow where
  | Read
  | Write
  deriving DecidableEq

/-- Modelled from the spec: the external OS primitive
TcpStream::shutdown (std/tokio, outside this repository) closes only the
selected direction of the connected socket, leaving the other open. -/
def tcpStream_shutdown (s : TcpStreamSock) (how : ShutdownHow) : TcpStreamSock :=
  match how with
  | ShutdownHow.Read => { s with readOpen := false }
  | ShutdownHow.Write => { s with writeOpen := false }

/-- op_shutdown: decode rid and how as i32; map how 0 to Shutdown::Read,
1 to Shutdown::Write, anything else to unimplemented!() (a panic);
then look up the handle as a StreamResource (bad_resource when absent),
require the TcpStream variant (bad_resource otherwise), apply the
half-close and return the empty success payload synchronously. -/
def op_shutdown (table : ResourceTable) (rid_arg : Int) (how : Int) :
    SyncOutcome (ResourceTable × Unit) :=
  let rid := i32_as_u32 rid_arg
  if how = 0 ∨ how = 1 then
    let shutdown_mode := if how = 0 then ShutdownHow.Read else ShutdownHow.Write
    match table.getStream rid with
    | none => SyncOutcome.err ErrBox.badResource
    | some (StreamResource.tcpStream stream) =>
        SyncOutcome.ok
          (table.setStream rid
            (StreamResource.tcpStream (tcpStream_shutdown stream shutdown_mode)), ())
    | some StreamResource.otherVariant => SyncOutcome.err ErrBox.badResource
  else
    SyncOutcome.panicked

/-- Arguments shared by op_dial and op_listen (DialArgs / ListenArgs):
transport string, hostname and a u16 port. -/
structure NetArgs where
  transport : String
  hostname : String
  port : Nat
  deriving DecidableEq

/-- The synchronous prelude of op_dial: assert_eq!(transport, "tcp")
panics on any other transport, then the permission check runs (its
verdict is the netPermitted input); address resolution and the connect
that follow are asynchronous external collaborators, so success here
means the handler proceeded past its synchronous phase. -/
def op_dial (args : NetArgs) (netPermitted : Bool) : SyncOutcome Unit :=
  if args.transport = "tcp" then
    if netPermitted then SyncOutcome.ok ()
    else SyncOutcome.err ErrBox.permissionDenied
  else SyncOutcome.panicked

/-- Fresh-handle allocation of ResourceTable::add: one past the largest
live handle (the allocator itself is external; only freshness matters). -/
def ResourceTable.nextRid (t : ResourceTable) : ResourceId :=
  t.foldl (fun m p => max m (p.1 + 1)) 0

/-- table.add: insert a resource at a fresh handle and return it. -/
def ResourceTable.add (t : ResourceTable) (r : Resource) :
    ResourceTable × ResourceId :=
  (t ++ [(t.nextRid, r)], t.nextRid)

/-- op_listen: assert_eq!(transport, "tcp") panics on any other
transport; then the permission check; then the blocking
resolve_addr(..).wait() plus TcpListener::bind plus local_addr() (all
external: their combined verdict is the resolved input); on success a
TcpListenerResource with no tracked task is stored and
{ rid, localAddr } is returned. -/
def op_listen (table : ResourceTable) (args : NetArgs) (netPermitted : Bool)
    (resolved : Except ErrBox Addr) :
    SyncOutcome (ResourceTable × ResourceId × Addr) :=
  if args.transport = "tcp" then
    if netPermitted then
      match resolved with
      | Except.error e => SyncOutcome.err e
      | Except.ok local_addr =>
          let added := table.add
            (Resource.tcpListener { task := none, local_addr := local_addr })
          SyncOutcome.ok (added.1, added.2, local_addr)
    else SyncOutcome.err ErrBox.permissionDenied
  else SyncOutcome.panicked

/-- The inputs the reactor supplies to one Accept::poll invocation: the
current resource table, the current scheduler task, and the outcome the
underlying socket poll would produce. -/
structure PollInput where
  table : ResourceTable
  cur : Task
  sock : SockPoll
  deriving DecidableEq

/-- An AcceptPoll outcome is final when the future returned its result
(a connection or an error); notReady keeps the future alive and a panic
returns nothing at all. -/
def AcceptPoll.isFinal : AcceptPoll → Bool
  | AcceptPoll.ready _ _ => true
  | AcceptPoll.err _ => true
  | AcceptPoll.notReady => false
  | AcceptPoll.panicked => false

/-- Drive an Accept future through a sequence of poll invocations,
collecting each invocation's outcome (tables are supplied per step by
the reactor model; the table a step returns is not threaded because the
claims quantify over arbitrary interleavings with other ops). -/
def runPolls : Accept → List PollInput → Accept × List AcceptPoll
  | a, [] => (a, [])
  | a, i :: rest =>
      let r := a.poll i.table i.cur i.sock
      let tail := runPolls r.1 rest
      (tail.1, r.2.2 :: tail.2)

/-! Basic lemmas about the resource table and the poll state machine,
shared by the claim theorems below. -/

theorem get_filter_self (t : ResourceTable) (rid : ResourceId) :
    ResourceTable.get (t.filter (fun p => p.1 ≠ rid)) rid = none := by
  unfold ResourceTable.get
  rw [Option.map_eq_none', List.find?_eq_none]
  intro x hx
  have hmem := List.of_mem_filter hx
  simp only [decide_not, Bool.not_eq_true', decide_eq_false_iff_not] at hmem
  simp only [decide_eq_true_eq]
  exact hmem

theorem get_cons_eq (p : ResourceId × Resource) (rest : ResourceTable)
    (rid : ResourceId) (hp : p.1 = rid) :
    ResourceTable.get (p :: rest) rid = some p.2 := by
  unfold ResourceTable.get
  rw [List.find?_cons_of_pos]
  · rfl
  · simp [hp]

theorem get_cons_ne (p : ResourceId × Resource) (rest : ResourceTable)
    (rid : ResourceId) (hp : p.1 ≠ rid) :
    ResourceTable.get (p :: rest) rid = ResourceTable.get rest rid := by
  unfold ResourceTable.get
  rw [List.find?_cons_of_neg]
  simp [hp]

theorem getTcpListener_some_get (t : ResourceTable) (rid : ResourceId)
    (lr : TcpListenerResource) (h : t.getTcpListener rid = some lr) :
    t.get rid = some (Resource.tcpListener lr) := by
  unfold ResourceTable.getTcpListener at h
  cases hg : t.get rid with
  | none => rw [hg] at h; simp at h
  | some r =>
    rw [hg] at h
    cases r with
    | tcpListener lr' => simp_all
    | stream s => simp at h

theorem get_set_tcpListener (t : ResourceTable) (rid : ResourceId)
    (lr' : TcpListenerResource) (h : (t.get rid).isSome) :
    ResourceTable.get (t.setTcpListener rid lr') rid =
      some (Resource.tcpListener lr') := by
  induction t with
  | nil => simp [ResourceTable.get] at h
  | cons p rest ih =>
    unfold ResourceTable.setTcpListener
    rw [List.map_cons]
    by_cases hp : p.1 = rid
    · rw [if_pos hp, get_cons_eq (p.1, Resource.tcpListener lr') _ rid hp]
    · rw [if_neg hp, get_cons_ne _ _ _ hp]
      rw [get_cons_ne _ _ _ hp] at h
      exact ih h

theorem get_set_stream (t : ResourceTable) (rid : ResourceId)
    (sr : StreamResource) (h : (t.get rid).isSome) :
    ResourceTable.get (t.setStream rid sr) rid = some (Resource.stream sr) := by
  induction t with
  | nil => simp [ResourceTable.get] at h
  | cons p rest ih =>
    unfold ResourceTable.setStream
    rw [List.map_cons]
    by_cases hp : p.1 = rid
    · rw [if_pos hp, get_cons_eq (p.1, Resource.stream sr) _ rid hp]
    · rw [if_neg hp, get_cons_ne _ _ _ hp]
      rw [get_cons_ne _ _ _ hp] at h
      exact ih h

theorem poll_not_done_not_panicked (a : Accept) (t : ResourceTable) (c : Task)
    (s : SockPoll) (h : a.accept_state ≠ AcceptState.Done) :
    (a.poll t c s).2.2 ≠ AcceptPoll.panicked := by
  obtain ⟨st, rid⟩ := a
  simp only [Accept.poll]
  cases st with
  | Done => exact absurd rfl h
  | Eager =>
    cases hg : ResourceTable.getTcpListener t rid with
    | none => simp [hg]
    | some lr => cases s <;> simp [hg]
  | Pending =>
    cases hg : ResourceTable.getTcpListener t rid with
    | none => simp [hg]
    | some lr =>
      cases s with
      | ready st ad => simp [hg]
      | notReady => cases ht : lr.track_task c <;> simp [hg, ht]
      | ioErr code => simp [hg]

theorem poll_nonfinal_not_done (a : Accept) (t : ResourceTable) (c : Task)
    (s : SockPoll) (h : a.accept_state ≠ AcceptState.Done)
    (hnf : ((a.poll t c s).2.2).isFinal = false) :
    (a.poll t c s).1.accept_state ≠ AcceptState.Done := by
  obtain ⟨st, rid⟩ := a
  simp only [Accept.poll] at hnf ⊢
  cases st with
  | Done => exact absurd rfl h
  | Eager =>
    cases hg : ResourceTable.getTcpListener t rid with
    | none => simp [hg]
    | some lr =>
      cases s with
      | ready st ad => simp [hg, AcceptPoll.isFinal] at hnf
      | notReady => simp [hg]
      | ioErr code => simp [hg, AcceptPoll.isFinal] at hnf
  | Pending =>
    cases hg : ResourceTable.getTcpListener t rid with
    | none => simp [hg]
    | some lr =>
      cases s with
      | ready st ad => simp [hg, AcceptPoll.isFinal] at hnf
      | notReady =>
        cases ht : lr.track_task c with
        | ok lr' => simp [hg, ht]
        | error e => simp [hg, ht]
      | ioErr code => simp [hg, AcceptPoll.isFinal] at hnf

theorem runPolls_not_done (inputs : List PollInput) (a : Accept)
    (h : a.accept_state ≠ AcceptState.Done)
    (hall : ∀ o ∈ (runPolls a inputs).2, o.isFinal = false) :
    (runPolls a inputs).1.accept_state ≠ AcceptState.Done := by
  induction inputs generalizing a with
  | nil => simpa [runPolls] using h
  | cons i rest ih =>
    simp only [runPolls] at hall ⊢
    have hhead : ((a.poll i.table i.cur i.sock).2.2).isFinal = false :=
      hall _ (List.mem_cons_self _ _)
    have htail : ∀ o ∈ (runPolls (a.poll i.table i.cur i.sock).1 rest).2,
        o.isFinal = false := fun o ho => hall o (List.mem_cons_of_mem _ ho)
    exact ih _ (poll_nonfinal_not_done a i.table i.cur i.sock h hhead) htail

theorem getStream_some_get (t : ResourceTable) (rid : ResourceId)
    (sr : StreamResource) (h : t.getStream rid = some sr) :
    t.get rid = some (Resource.stream sr) := by
  unfold ResourceTable.getStream at h
  cases hg : t.get rid with
  | none => rw [hg] at h; simp at h
  | some r =>
    rw [hg] at h
    cases r with
    | tcpListener lr' => simp at h
    | stream s => simp_all

theorem untrack_task_clears (lr : TcpListenerResource) :
    (lr.untrack_task).task = none := by
  unfold TcpListenerResource.untrack_task
  cases h : lr.task <;> simp [h]

/-! The claim theorems. -/

/-- C1: removing a listener whose waiting-task slot holds a suspended
accept's task wakes exactly that task, clears the slot, removes the
handle from the table, and the woken accept's next poll observes the
missing handle and resolves with ListenerUnavailable (the
listenerClosed ErrBox) whatever the socket would have reported. -/
theorem C1_teardown_wakes_waiter_and_accept_errors
    (table : ResourceTable) (rid : ResourceId) (lr : TcpListenerResource)
    (t0 : Task) (a : Accept) (cur : Task) (sock : SockPoll)
    (hget : table.getTcpListener rid = some lr)
    (htask : lr.task = some t0)
    (hrid : a.rid = rid) (hst : a.accept_state = AcceptState.Pending) :
    (table.close rid).2 = some t0 ∧
    (lr.notify_task).1.task = none ∧
    ResourceTable.getTcpListener (table.close rid).1 rid = none ∧
    a.poll (table.close rid).1 cur sock =
      (a, (table.close rid).1, AcceptPoll.err ErrBox.listenerClosed) := by
  have hraw := getTcpListener_some_get table rid lr hget
  have hclosed : ResourceTable.getTcpListener (table.close rid).1 rid = none := by
    unfold ResourceTable.close
    rw [hraw]
    unfold ResourceTable.getTcpListener
    rw [get_filter_self]
  refine ⟨?_, ?_, hclosed, ?_⟩
  · unfold ResourceTable.close
    rw [hraw]
    simp [TcpListenerResource.notify_task, htask]
  · simp [TcpListenerResource.notify_task, htask]
  · obtain ⟨st, arid⟩ := a
    simp only at hrid hst
    subst hrid hst
    simp only [Accept.poll]
    simp [hclosed]

/-- C2: a Suspended-phase not-ready poll against a listener that already
tracks a waiting task fails with ConcurrentAcceptViolation (the
anotherAcceptOngoing ErrBox) and returns the table unchanged, so the
originally registered task is never replaced. -/
theorem C2_second_waiter_rejected
    (a : Accept) (table : ResourceTable) (lr : TcpListenerResource)
    (t0 cur : Task)
    (hst : a.accept_state = AcceptState.Pending)
    (hget : table.getTcpListener a.rid = some lr)
    (htask : lr.task = some t0)
    (hne : cur ≠ t0) :
    a.poll table cur SockPoll.notReady =
      (a, table, AcceptPoll.err ErrBox.anotherAcceptOngoing) := by
  obtain ⟨st, arid⟩ := a
  simp only at hst hget
  subst hst
  simp [Accept.poll, hget, TcpListenerResource.track_task, htask]

/-- C3: whenever the listener handle no longer resolves to a
TcpListenerResource, a poll in any non-Done phase fails with
ListenerUnavailable, and the result does not depend on the socket poll
outcome (no socket poll is consulted). -/
theorem C3_missing_listener_fails_immediately
    (a : Accept) (table : ResourceTable) (cur : Task) (sock : SockPoll)
    (hst : a.accept_state ≠ AcceptState.Done)
    (hget : table.getTcpListener a.rid = none) :
    a.poll table cur sock = (a, table, AcceptPoll.err ErrBox.listenerClosed) := by
  obtain ⟨st, arid⟩ := a
  simp only at hst hget
  cases st with
  | Done => exact absurd rfl hst
  | Eager => simp [Accept.poll, hget]
  | Pending => simp [Accept.poll, hget]

/-- C4: an Eager-phase poll never mutates the resource table (so the
waiting-task slot is untouched); on a ready connection it completes
Done with the connection, and on not-ready it moves to the Pending
(Suspended) phase returning notReady without registering a task. -/
theorem C4_eager_phase_no_wait_state_mutation
    (a : Accept) (table : ResourceTable) (lr : TcpListenerResource)
    (cur : Task) (sock : SockPoll) (s : TcpStreamSock) (addr : Addr)
    (hst : a.accept_state = AcceptState.Eager)
    (hget : table.getTcpListener a.rid = some lr) :
    (a.poll table cur sock).2.1 = table ∧
    a.poll table cur (SockPoll.ready s addr) =
      ({ a with accept_state := AcceptState.Done }, table,
        AcceptPoll.ready s addr) ∧
    a.poll table cur SockPoll.notReady =
      ({ a with accept_state := AcceptState.Pending }, table,
        AcceptPoll.notReady) := by
  obtain ⟨st, arid⟩ := a
  simp only at hst hget
  subst hst
  refine ⟨?_, ?_, ?_⟩
  · cases sock <;> simp [Accept.poll, hget]
  · simp [Accept.poll, hget]
  · simp [Accept.poll, hget]

/-- C5: a Suspended-phase poll whose socket poll reports a ready
connection clears the listener's waiting-task slot, transitions the
future to Done, and returns the new stream with its remote address. -/
theorem C5_pending_ready_clears_slot_and_completes
    (a : Accept) (table : ResourceTable) (lr : TcpListenerResource)
    (cur : Task) (s : TcpStreamSock) (addr : Addr)
    (hst : a.accept_state = AcceptState.Pending)
    (hget : table.getTcpListener a.rid = some lr) :
    a.poll table cur (SockPoll.ready s addr) =
      ({ a with accept_state := AcceptState.Done },
        table.setTcpListener a.rid lr.untrack_task, AcceptPoll.ready s addr) ∧
    ResourceTable.getTcpListener
      (table.setTcpListener a.rid lr.untrack_task) a.rid =
        some lr.untrack_task ∧
    (lr.untrack_task).task = none := by
  have hraw := getTcpListener_some_get table a.rid lr hget
  have hsome : (table.get a.rid).isSome := by rw [hraw]; rfl
  refine ⟨?_, ?_, untrack_task_clears lr⟩
  · obtain ⟨st, arid⟩ := a
    simp only at hst hget
    subst hst
    simp [Accept.poll, hget]
  · unfold ResourceTable.getTcpListener
    rw [get_set_tcpListener table a.rid lr.untrack_task hsome]

/-- C6: polling a Done Accept future panics; and starting from the
future that accept(rid) constructs, as long as no poll has returned a
final result (a connection or an error), the future's phase is never
Done, so the panicking branch is unreachable on the next poll. -/
theorem C6_done_poll_panics_but_unreachable
    (rid rid2 : ResourceId) (inputs : List PollInput)
    (tbl tbl2 : ResourceTable) (cur cur2 : Task) (sock sock2 : SockPoll)
    (h : ∀ o ∈ (runPolls (accept rid) inputs).2, o.isFinal = false) :
    (Accept.poll { accept_state := AcceptState.Done, rid := rid2 }
        tbl2 cur2 sock2).2.2 = AcceptPoll.panicked ∧
    ((runPolls (accept rid) inputs).1.poll tbl cur sock).2.2 ≠
      AcceptPoll.panicked := by
  refine ⟨by simp [Accept.poll], ?_⟩
  exact poll_not_done_not_panicked _ tbl cur sock
    (runPolls_not_done inputs (accept rid) (by simp [accept]) h)

/-- C7: a handle that does not resolve to a TcpListenerResource makes
op_accept fail synchronously with BadResource, and a handle that is
absent or resolves to a non-TcpStream stream variant makes op_shutdown
(with a recognized mode) fail with BadResource. -/
theorem C7_bad_resource_on_wrong_kind
    (tableA tableS : ResourceTable) (ridA ridS how : Int)
    (hA : tableA.getTcpListener (i32_as_u32 ridA) = none)
    (hS : tableS.getStream (i32_as_u32 ridS) = none ∨
          tableS.getStream (i32_as_u32 ridS) = some StreamResource.otherVariant)
    (hhow : how = 0 ∨ how = 1) :
    op_accept tableA ridA = Except.error ErrBox.badResource ∧
    op_shutdown tableS ridS how = SyncOutcome.err ErrBox.badResource := by
  constructor
  · simp [op_accept, hA]
  · unfold op_shutdown
    rw [if_pos hhow]
    rcases hS with hS | hS <;> simp [hS]

/-- C8: op_shutdown maps mode 0 to a read-side-only half-close and mode
1 to a write-side-only half-close of the TcpStream resource, stores the
half-closed stream back in the table, returns the empty payload
synchronously, and panics (unimplemented!) on any other mode. -/
theorem C8_shutdown_mode_mapping
    (table : ResourceTable) (rid_arg how : Int) (s : TcpStreamSock)
    (hget : table.getStream (i32_as_u32 rid_arg) =
      some (StreamResource.tcpStream s))
    (h0 : how ≠ 0) (h1 : how ≠ 1) :
    op_shutdown table rid_arg 0 = SyncOutcome.ok
      (table.setStream (i32_as_u32 rid_arg)
        (StreamResource.tcpStream { s with readOpen := false }), ()) ∧
    op_shutdown table rid_arg 1 = SyncOutcome.ok
      (table.setStream (i32_as_u32 rid_arg)
        (StreamResource.tcpStream { s with writeOpen := false }), ()) ∧
    op_shutdown table rid_arg how = SyncOutcome.panicked ∧
    ResourceTable.getStream
      (table.setStream (i32_as_u32 rid_arg)
        (StreamResource.tcpStream { s with readOpen := false }))
      (i32_as_u32 rid_arg) =
        some (StreamResource.tcpStream { s with readOpen := false }) := by
  have hraw := getStream_some_get table (i32_as_u32 rid_arg) _ hget
  have hsome : (table.get (i32_as_u32 rid_arg)).isSome := by rw [hraw]; rfl
  refine ⟨?_, ?_, ?_, ?_⟩
  · simp [op_shutdown, hget, tcpStream_shutdown]
  · simp [op_shutdown, hget, tcpStream_shutdown]
  · unfold op_shutdown
    rw [if_neg]
    intro hc
    rcases hc with hc | hc
    · exact h0 hc
    · exact h1 hc
  · unfold ResourceTable.getStream
    rw [get_set_stream table (i32_as_u32 rid_arg) _ hsome]

/-- C9: op_dial and op_listen panic (assert_eq!) on any transport other
than "tcp", and with transport "tcp" they never panic: the handler
proceeds (to the permission check and beyond). -/
theorem C9_transport_must_be_tcp
    (args : NetArgs) (netPermitted : Bool) (table : ResourceTable)
    (resolved : Except ErrBox Addr) :
    (args.transport ≠ "tcp" →
      op_dial args netPermitted = SyncOutcome.panicked ∧
      op_listen table args netPermitted resolved = SyncOutcome.panicked) ∧
    (args.transport = "tcp" →
      op_dial args netPermitted ≠ SyncOutcome.panicked ∧
      op_listen table args netPermitted resolved ≠ SyncOutcome.panicked) := by
  constructor
  · intro h
    constructor
    · simp [op_dial, h]
    · simp [op_listen, h]
  · intro h
    constructor
    · unfold op_dial
      rw [if_pos h]
      cases netPermitted <;> simp
    · unfold op_listen
      rw [if_pos h]
      cases netPermitted with
      | false => simp
      | true => cases resolved <;> simp

/-- C10: op_accept and op_shutdown decode rid as an i32 and cast it to
u32 modulo 2^32; for a negative rid in the i32 range the lookup is
performed on the wrapped handle 2^32 + rid rather than rejecting the
input, so a resource stored there is found and the op succeeds. -/
theorem C10_negative_rid_wraps
    (tableA tableS : ResourceTable) (r : Int) (lr : TcpListenerResource)
    (s : TcpStreamSock)
    (hr1 : -(2 ^ 31) ≤ r) (hr2 : r < 0)
    (hA : tableA.getTcpListener (2 ^ 32 + r).toNat = some lr)
    (hS : tableS.getStream (2 ^ 32 + r).toNat =
      some (StreamResource.tcpStream s)) :
    i32_as_u32 r = (2 ^ 32 + r).toNat ∧
    op_accept tableA r = Except.ok (accept ((2 ^ 32 + r).toNat)) ∧
    op_shutdown tableS r 0 = SyncOutcome.ok
      (tableS.setStream ((2 ^ 32 + r).toNat)
        (StreamResource.tcpStream { s with readOpen := false }), ()) := by
  have hw : i32_as_u32 r = (2 ^ 32 + r).toNat := by
    have h : (r % (2 ^ 32 : Int)).toNat = ((2 ^ 32 : Int) + r).toNat := by omega
    exact h
  have h32 : ((2 : Int) ^ 32 + r).toNat = ((4294967296 : Int) + r).toNat := by
    norm_num
  refine ⟨hw, ?_, ?_⟩
  · have hA' : tableA.getTcpListener ((4294967296 : Int) + r).toNat = some lr := by
      rw [h32] at hA; exact hA
    unfold op_accept
    rw [hw]
    simp [hA']
  · have hS' : tableS.getStream ((4294967296 : Int) + r).toNat =
        some (StreamResource.tcpStream s) := by
      rw [h32] at hS; exact hS
    unfold op_shutdown
    rw [hw]
    simp [hS', tcpStream_shutdown]

/-! Concrete witnesses instantiating each claim theorem. -/

/-- Witness for C1 at a one-entry table whose listener tracks task 7. -/
theorem C1_witness :
    (ResourceTable.close [(3, Resource.tcpListener ⟨some 7, "h"⟩)] 3).2 =
      some 7 ∧
    (TcpListenerResource.notify_task ⟨some 7, "h"⟩).1.task = none ∧
    ResourceTable.getTcpListener
      (ResourceTable.close [(3, Resource.tcpListener ⟨some 7, "h"⟩)] 3).1 3 =
        none ∧
    Accept.poll ⟨AcceptState.Pending, 3⟩
      (ResourceTable.close [(3, Resource.tcpListener ⟨some 7, "h"⟩)] 3).1 9
      SockPoll.notReady =
      (⟨AcceptState.Pending, 3⟩,
        (ResourceTable.close [(3, Resource.tcpListener ⟨some 7, "h"⟩)] 3).1,
        AcceptPoll.err ErrBox.listenerClosed) :=
  C1_teardown_wakes_waiter_and_accept_errors
    [(3, Resource.tcpListener ⟨some 7, "h"⟩)] 3 ⟨some 7, "h"⟩ 7
    ⟨AcceptState.Pending, 3⟩ 9 SockPoll.notReady rfl rfl rfl rfl

/-- Witness for C2: task 9 attempts to register while task 7 holds the
slot. -/
theorem C2_witness :
    (9 : Task) ≠ 7 ∧
    Accept.poll ⟨AcceptState.Pending, 3⟩
      [(3, Resource.tcpListener ⟨some 7, "h"⟩)] 9 SockPoll.notReady =
      (⟨AcceptState.Pending, 3⟩, [(3, Resource.tcpListener ⟨some 7, "h"⟩)],
        AcceptPoll.err ErrBox.anotherAcceptOngoing) :=
  ⟨by decide,
    C2_second_waiter_rejected ⟨AcceptState.Pending, 3⟩
      [(3, Resource.tcpListener ⟨some 7, "h"⟩)] ⟨some 7, "h"⟩ 7 9
      rfl rfl rfl (by decide)⟩

/-- Witness for C3 at an empty table, with a socket that would even have
a connection ready. -/
theorem C3_witness :
    Accept.poll ⟨AcceptState.Eager, 5⟩ [] 9 (SockPoll.ready ⟨true, true⟩ "x") =
      (⟨AcceptState.Eager, 5⟩, [], AcceptPoll.err ErrBox.listenerClosed) :=
  C3_missing_listener_fails_immediately ⟨AcceptState.Eager, 5⟩ [] 9
    (SockPoll.ready ⟨true, true⟩ "x") (by decide) rfl

/-- Witness for C4 on a listener with an empty waiting-task slot. -/
theorem C4_witness :
    (Accept.poll ⟨AcceptState.Eager, 3⟩ [(3, Resource.tcpListener ⟨none, "h"⟩)]
        9 (SockPoll.ioErr 2)).2.1 = [(3, Resource.tcpListener ⟨none, "h"⟩)] ∧
    Accept.poll ⟨AcceptState.Eager, 3⟩ [(3, Resource.tcpListener ⟨none, "h"⟩)]
        9 (SockPoll.ready ⟨true, true⟩ "a") =
      (⟨AcceptState.Done, 3⟩, [(3, Resource.tcpListener ⟨none, "h"⟩)],
        AcceptPoll.ready ⟨true, true⟩ "a") ∧
    Accept.poll ⟨AcceptState.Eager, 3⟩ [(3, Resource.tcpListener ⟨none, "h"⟩)]
        9 SockPoll.notReady =
      (⟨AcceptState.Pending, 3⟩, [(3, Resource.tcpListener ⟨none, "h"⟩)],
        AcceptPoll.notReady) :=
  C4_eager_phase_no_wait_state_mutation ⟨AcceptState.Eager, 3⟩
    [(3, Resource.tcpListener ⟨none, "h"⟩)] ⟨none, "h"⟩ 9 (SockPoll.ioErr 2)
    ⟨true, true⟩ "a" rfl rfl

/-- Witness for C5 on a listener whose slot holds task 7. -/
theorem C5_witness :
    Accept.poll ⟨AcceptState.Pending, 3⟩
        [(3, Resource.tcpListener ⟨some 7, "h"⟩)] 9
        (SockPoll.ready ⟨true, true⟩ "a") =
      (⟨AcceptState.Done, 3⟩,
        ResourceTable.setTcpListener [(3, Resource.tcpListener ⟨some 7, "h"⟩)] 3
          (TcpListenerResource.untrack_task ⟨some 7, "h"⟩),
        AcceptPoll.ready ⟨true, true⟩ "a") ∧
    ResourceTable.getTcpListener
      (ResourceTable.setTcpListener [(3, Resource.tcpListener ⟨some 7, "h"⟩)] 3
        (TcpListenerResource.untrack_task ⟨some 7, "h"⟩)) 3 =
      some (TcpListenerResource.untrack_task ⟨some 7, "h"⟩) ∧
    (TcpListenerResource.untrack_task ⟨some 7, "h"⟩).task = none :=
  C5_pending_ready_clears_slot_and_completes ⟨AcceptState.Pending, 3⟩
    [(3, Resource.tcpListener ⟨some 7, "h"⟩)] ⟨some 7, "h"⟩ 9 ⟨true, true⟩ "a"
    rfl rfl

/-- Witness for C6: one not-ready poll of a fresh accept, after which the
next poll cannot hit the panic branch, while a Done future panics. -/
theorem C6_witness :
    (∀ o ∈ (runPolls (accept 3)
        [⟨[(3, Resource.tcpListener ⟨none, "h"⟩)], 9, SockPoll.notReady⟩]).2,
      o.isFinal = false) ∧
    (Accept.poll ⟨AcceptState.Done, 4⟩ [] 0 SockPoll.notReady).2.2 =
      AcceptPoll.panicked ∧
    ((runPolls (accept 3)
        [⟨[(3, Resource.tcpListener ⟨none, "h"⟩)], 9, SockPoll.notReady⟩]).1.poll
      [] 9 SockPoll.notReady).2.2 ≠ AcceptPoll.panicked :=
  ⟨by decide,
    C6_done_poll_panics_but_unreachable 3 4
      [⟨[(3, Resource.tcpListener ⟨none, "h"⟩)], 9, SockPoll.notReady⟩]
      [] [] 9 0 SockPoll.notReady SockPoll.notReady (by decide)⟩

/-- Witness for C7: accept on an empty table, shutdown on a non-TCP
stream variant. -/
theorem C7_witness :
    op_accept [] 5 = Except.error ErrBox.badResource ∧
    op_shutdown [(2, Resource.stream StreamResource.otherVariant)] 2 0 =
      SyncOutcome.err ErrBox.badResource :=
  C7_bad_resource_on_wrong_kind []
    [(2, Resource.stream StreamResource.otherVariant)] 5 2 0
    rfl (Or.inr rfl) (Or.inl rfl)

/-- Witness for C8 on a fully open TCP stream at handle 2, with 5 as the
unrecognized mode. -/
theorem C8_witness :
    op_shutdown [(2, Resource.stream (StreamResource.tcpStream ⟨true, true⟩))]
        2 0 =
      SyncOutcome.ok
        (ResourceTable.setStream
          [(2, Resource.stream (StreamResource.tcpStream ⟨true, true⟩))]
          (i32_as_u32 2) (StreamResource.tcpStream ⟨false, true⟩), ()) ∧
    op_shutdown [(2, Resource.stream (StreamResource.tcpStream ⟨true, true⟩))]
        2 1 =
      SyncOutcome.ok
        (ResourceTable.setStream
          [(2, Resource.stream (StreamResource.tcpStream ⟨true, true⟩))]
          (i32_as_u32 2) (StreamResource.tcpStream ⟨true, false⟩), ()) ∧
    op_shutdown [(2, Resource.stream (StreamResource.tcpStream ⟨true, true⟩))]
        2 5 = SyncOutcome.panicked ∧
    ResourceTable.getStream
      (ResourceTable.setStream
        [(2, Resource.stream (StreamResource.tcpStream ⟨true, true⟩))]
        (i32_as_u32 2) (StreamResource.tcpStream ⟨false, true⟩))
      (i32_as_u32 2) = some (StreamResource.tcpStream ⟨false, true⟩) :=
  C8_shutdown_mode_mapping
    [(2, Resource.stream (StreamResource.tcpStream ⟨true, true⟩))] 2 5
    ⟨true, true⟩ rfl (by decide) (by decide)

/-- Witness for C9: transport "udp" panics, transport "tcp" proceeds. -/
theorem C9_witness :
    op_dial ⟨"udp", "h", 1⟩ true = SyncOutcome.panicked ∧
    op_dial ⟨"tcp", "h", 1⟩ true ≠ SyncOutcome.panicked :=
  ⟨((C9_transport_must_be_tcp ⟨"udp", "h", 1⟩ true [] (Except.ok ("a"))).1
      (by decide)).1,
    ((C9_transport_must_be_tcp ⟨"tcp", "h", 1⟩ true [] (Except.ok ("a"))).2
      rfl).1⟩

/-- Witness for C10 at rid = -1, with resources stored at the wrapped
handle 4294967295. -/
theorem C10_witness :
    i32_as_u32 (-1) = ((2 : Int) ^ 32 + (-1 : Int)).toNat ∧
    op_accept [(4294967295, Resource.tcpListener ⟨none, "h"⟩)] (-1) =
      Except.ok (accept (((2 : Int) ^ 32 + (-1 : Int)).toNat)) ∧
    op_shutdown
        [(4294967295, Resource.stream (StreamResource.tcpStream ⟨true, true⟩))]
        (-1) 0 =
      SyncOutcome.ok
        (ResourceTable.setStream
          [(4294967295, Resource.stream (StreamResource.tcpStream ⟨true, true⟩))]
          (((2 : Int) ^ 32 + (-1 : Int)).toNat)
          (StreamResource.tcpStream ⟨false, true⟩), ()) :=
  C10_negative_rid_wraps [(4294967295, Resource.tcpListener ⟨none, "h"⟩)]
    [(4294967295, Resource.stream (StreamResource.tcpStream ⟨true, true⟩))]
    (-1) ⟨none, "h"⟩ ⟨true, true⟩ (by decide) (by decide) (by decide) (by decide)

end DenoNet
